import Mathlib

/-!
Shallow embedding of the indicator / scanner /
options-pricing core (src/src/analysis/technical.py, src/src/analysis/patterns.py,
src/src/scanner/breakout_scanner.py, src/src/options/greeks.py), together with
proofs settling the frozen claims about it.

Modelling conventions:
* pandas float64 columns are modelled as `List ℚ`; columns that can hold
  NaN (rolling warm-up prefixes) as `List (Option ℚ)` with `none` = NaN.
* Where IEEE special values (inf, -inf, NaN) are produced by a division and
  then flow into further arithmetic or comparisons (RSI, VWAP, percentage
  changes), values are modelled by `FVal` with IEEE-style operations:
  comparisons against NaN are false, x/0 is ±inf for x ≠ 0 and NaN for 0/0.
* External collaborators (yfinance fetch, numpy/scipy transcendentals) are
  parameters: a fetch oracle `String → Except Unit Df` (error = the Python
  call raised), and a `MathFns` record for log / sqrt / exp / norm.cdf /
  norm.pdf.
-/

namespace Dashboard

/-- IEEE-style float value: NaN, plus infinity, minus infinity, or a finite
rational. Used where the Python code can produce special values. -/
inductive FVal where
  | nan : FVal
  | inf : FVal
  | ninf : FVal
  | fin : ℚ → FVal
deriving DecidableEq

/-- Lift a NaN-able optional rational into `FVal`. -/
def ofOpt : Option ℚ → FVal
  | none => .nan
  | some q => .fin q

/-- IEEE negation. -/
def fneg : FVal → FVal
  | .nan => .nan
  | .inf => .ninf
  | .ninf => .inf
  | .fin q => .fin (-q)

/-- IEEE addition (inf + -inf = NaN). -/
def fadd : FVal → FVal → FVal
  | .nan, _ => .nan
  | _, .nan => .nan
  | .inf, .ninf => .nan
  | .ninf, .inf => .nan
  | .inf, _ => .inf
  | _, .inf => .inf
  | .ninf, _ => .ninf
  | _, .ninf => .ninf
  | .fin a, .fin b => .fin (a + b)

/-- IEEE subtraction. -/
def fsub (x y : FVal) : FVal := fadd x (fneg y)

/-- IEEE multiplication (0 * inf = NaN). -/
def fmul : FVal → FVal → FVal
  | .nan, _ => .nan
  | _, .nan => .nan
  | .inf, .inf => .inf
  | .inf, .ninf => .ninf
  | .ninf, .inf => .ninf
  | .ninf, .ninf => .inf
  | .inf, .fin b => if 0 < b then .inf else if b < 0 then .ninf else .nan
  | .fin a, .inf => if 0 < a then .inf else if a < 0 then .ninf else .nan
  | .ninf, .fin b => if 0 < b then .ninf else if b < 0 then .inf else .nan
  | .fin a, .ninf => if 0 < a then .ninf else if a < 0 then .inf else .nan
  | .fin a, .fin b => .fin (a * b)

/-- IEEE division: x/0 is ±inf for x ≠ 0 and NaN for 0/0; finite/±inf is 0
(the sign of zero is not tracked); ±inf/±inf is NaN; ±inf/finite keeps the
sign convention of IEEE (inf/0 = inf). -/
def fdiv : FVal → FVal → FVal
  | .nan, _ => .nan
  | _, .nan => .nan
  | .inf, .inf => .nan
  | .inf, .ninf => .nan
  | .ninf, .inf => .nan
  | .ninf, .ninf => .nan
  | .inf, .fin b => if b < 0 then .ninf else .inf
  | .ninf, .fin b => if b < 0 then .inf else .ninf
  | .fin _, .inf => .fin 0
  | .fin _, .ninf => .fin 0
  | .fin a, .fin b =>
    if b = 0 then (if a = 0 then .nan else if 0 < a then .inf else .ninf)
    else .fin (a / b)

/-- IEEE absolute value. -/
def fabs : FVal → FVal
  | .nan => .nan
  | .inf => .inf
  | .ninf => .inf
  | .fin q => .fin |q|

/-- IEEE strict less-than as the Python comparison: any comparison with NaN
is false. -/
def fltB : FVal → FVal → Bool
  | .nan, _ => false
  | _, .nan => false
  | .ninf, .ninf => false
  | .ninf, _ => true
  | _, .ninf => false
  | .inf, _ => false
  | .fin _, .inf => true
  | .fin a, .fin b => a < b

/-- IEEE less-or-equal as the Python comparison: any comparison with NaN is
false. -/
def fleB : FVal → FVal → Bool
  | .nan, _ => false
  | _, .nan => false
  | .ninf, _ => true
  | _, .ninf => false
  | _, .inf => true
  | .inf, _ => false
  | .fin a, .fin b => a ≤ b

/-! ## Series primitives (pandas rolling / cumulative operations) -/

/-- The trailing window of `w` samples ending at index `i` (inclusive). -/
def windowEnd (xs : List ℚ) (w i : ℕ) : List ℚ :=
  (xs.take (i + 1)).drop (i + 1 - w)

/-- pandas `rolling(window=w).mean()` with the default `min_periods`:
NaN (`none`) until a full window is available. -/
def rolling_mean (xs : List ℚ) (w : ℕ) : List (Option ℚ) :=
  (List.range xs.length).map fun i =>
    if w ≤ i + 1 then some ((windowEnd xs w i).sum / (w : ℚ)) else none

/-- pandas `rolling(window=w).max()`. -/
def rolling_max (xs : List ℚ) (w : ℕ) : List (Option ℚ) :=
  (List.range xs.length).map fun i =>
    if w ≤ i + 1 then (windowEnd xs w i).max? else none

/-- pandas `rolling(window=w).min()`. -/
def rolling_min (xs : List ℚ) (w : ℕ) : List (Option ℚ) :=
  (List.range xs.length).map fun i =>
    if w ≤ i + 1 then (windowEnd xs w i).min? else none

/-- pandas `rolling(window=w).std()`: sample standard deviation (ddof = 1)
over the trailing window, through a square-root oracle `sq` (float sqrt is
not exact over ℚ). -/
def rolling_std (sq : ℚ → ℚ) (xs : List ℚ) (w : ℕ) : List (Option ℚ) :=
  (List.range xs.length).map fun i =>
    if w ≤ i + 1 then
      let win := windowEnd xs w i
      let m := win.sum / (w : ℚ)
      some (sq (((win.map fun x => (x - m) ^ 2).sum) / ((w : ℚ) - 1)))
    else none

/-- pandas `.cumsum()`. -/
def cumsum (xs : List ℚ) : List ℚ :=
  (List.range xs.length).map fun i => (xs.take (i + 1)).sum

/-! ## Data model -/

/-- One OHLCV row of the fetched DataFrame (columns Open, High, Low, Close,
Volume). -/
structure Bar where
  open_ : ℚ
  high : ℚ
  low : ℚ
  close : ℚ
  volume : ℚ
deriving DecidableEq

/-- A fetched price DataFrame: rows in ascending time order. -/
abbrev Df := List Bar

/-- The Close column. -/
def closes (df : Df) : List ℚ := df.map (·.close)

/-- The High column. -/
def highs (df : Df) : List ℚ := df.map (·.high)

/-- The Low column. -/
def lows (df : Df) : List ℚ := df.map (·.low)

/-- The Volume column. -/
def volumes (df : Df) : List ℚ := df.map (·.volume)

/-! ## src/analysis/technical.py -/

/-- `calculate_sma(data, period)`: `data.rolling(window=period).mean()`. -/
def calculate_sma (data : List ℚ) (period : ℕ) : List (Option ℚ) :=
  rolling_mean data period

/-- Recursion for `ewm(span, adjust=False).mean()`: each value is
`x*k + prev*(1-k)`. -/
def emaGo (k : ℚ) : ℚ → List ℚ → List ℚ
  | _, [] => []
  | prev, x :: xs =>
    let v := x * k + prev * (1 - k)
    v :: emaGo k v xs

/-- `calculate_ema(data, period)`: `data.ewm(span=period, adjust=False).mean()`,
seeded with the first value, smoothing k = 2/(period+1). -/
def calculate_ema (data : List ℚ) (period : ℕ) : List ℚ :=
  match data with
  | [] => []
  | x :: xs => x :: emaGo (2 / ((period : ℚ) + 1)) x xs

/-- The gain series of `calculate_rsi`: `delta.where(delta > 0, 0).fillna(0)`
where `delta = data.diff()` (index 0 is NaN, so it becomes 0). -/
def gains (data : List ℚ) : List ℚ :=
  (List.range data.length).map fun i =>
    match i with
    | 0 => 0
    | j + 1 =>
      let d := data.getD (j + 1) 0 - data.getD j 0
      if 0 < d then d else 0

/-- The loss series of `calculate_rsi`:
`(-delta.where(delta < 0, 0)).fillna(0)`. -/
def losses (data : List ℚ) : List ℚ :=
  (List.range data.length).map fun i =>
    match i with
    | 0 => 0
    | j + 1 =>
      let d := data.getD (j + 1) 0 - data.getD j 0
      if d < 0 then -d else 0

/-- The RSI value computed from one average gain and one average loss, with
the IEEE semantics of the pandas expression `100 - (100 / (1 + rs))`,
`rs = avg_gain / avg_loss` (NaN-able inputs). -/
def rsiVal (g l : Option ℚ) : FVal :=
  let rs := fdiv (ofOpt g) (ofOpt l)
  fsub (.fin 100) (fdiv (.fin 100) (fadd (.fin 1) rs))

/-- `calculate_rsi(data, period=14)`: average gain and loss are rolling
means over `period`; RSI = 100 - 100/(1 + avg_gain/avg_loss) with pandas
float semantics (0/0 = NaN, positive/0 = inf, 100 - 100/inf = 100). -/
def calculate_rsi (data : List ℚ) (period : ℕ := 14) : List FVal :=
  (List.range data.length).map fun i =>
    rsiVal ((rolling_mean (gains data) period).getD i none)
           ((rolling_mean (losses data) period).getD i none)

/-- `calculate_macd(data, 12, 26, 9)`:
(macd_line, signal_line, histogram). -/
def calculate_macd (data : List ℚ) (fast_period : ℕ := 12)
    (slow_period : ℕ := 26) (signal_period : ℕ := 9) :
    List ℚ × List ℚ × List ℚ :=
  let ema_fast := calculate_ema data fast_period
  let ema_slow := calculate_ema data slow_period
  let macd_line := List.zipWith (· - ·) ema_fast ema_slow
  let signal_line := calculate_ema macd_line signal_period
  let histogram := List.zipWith (· - ·) macd_line signal_line
  (macd_line, signal_line, histogram)

/-- `calculate_bollinger_bands(data, 20, 2.0)` through a sqrt oracle:
(upper_band, middle_band, lower_band). -/
def calculate_bollinger_bands (sq : ℚ → ℚ) (data : List ℚ)
    (period : ℕ := 20) (std_dev : ℚ := 2) :
    List (Option ℚ) × List (Option ℚ) × List (Option ℚ) :=
  let middle_band := calculate_sma data period
  let rstd := rolling_std sq data period
  let upper_band := List.zipWith
    (fun m s => match m, s with
      | some m, some s => some (m + s * std_dev)
      | _, _ => none) middle_band rstd
  let lower_band := List.zipWith
    (fun m s => match m, s with
      | some m, some s => some (m - s * std_dev)
      | _, _ => none) middle_band rstd
  (upper_band, middle_band, lower_band)

/-- `calculate_vwap(df)`: cumulative (typical price * volume) over cumulative
volume; a zero cumulative volume gives the IEEE result of the float division
(NaN for 0/0). -/
def calculate_vwap (df : Df) : List FVal :=
  let typical_price := df.map fun b => (b.high + b.low + b.close) / 3
  let num := cumsum (List.zipWith (· * ·) typical_price (volumes df))
  let den := cumsum (volumes df)
  List.zipWith (fun a b => fdiv (.fin a) (.fin b)) num den

/-- Recursion for `calculate_obv`. -/
def obvGo : ℚ → ℚ → List Bar → List ℚ
  | _, _, [] => []
  | prevClose, prevObv, b :: rest =>
    let v :=
      if prevClose < b.close then prevObv + b.volume
      else if b.close < prevClose then prevObv - b.volume
      else prevObv
    v :: obvGo b.close v rest

/-- `calculate_obv(df)`: running signed accumulation of volume, seeded with
the first volume (empty input would raise in the source; modelled as []). -/
def calculate_obv (df : Df) : List ℚ :=
  match df with
  | [] => []
  | b :: rest => b.volume :: obvGo b.close b.volume rest

/-- The frame returned by `add_all_indicators`: the copied input columns
plus one field per added indicator column. -/
structure IndicatorDf where
  base : Df
  SMA_20 : List (Option ℚ)
  SMA_50 : List (Option ℚ)
  SMA_200 : List (Option ℚ)
  EMA_12 : List ℚ
  EMA_26 : List ℚ
  RSI : List FVal
  MACD : List ℚ
  MACD_Signal : List ℚ
  MACD_Histogram : List ℚ
  BB_Upper : List (Option ℚ)
  BB_Middle : List (Option ℚ)
  BB_Lower : List (Option ℚ)
  VWAP : List FVal
  OBV : List ℚ
deriving DecidableEq

/-- `add_all_indicators(df)`: `result_df = df.copy()` and then only new
indicator columns are assigned on the copy; the callees never write to
`df`. Our `Df` always carries a Volume column, so the
Volume-presence branch always runs. `sq` is the sqrt oracle
needed by the Bollinger computation. -/
def add_all_indicators (sq : ℚ → ℚ) (df : Df) : IndicatorDf :=
  let c := closes df
  let macd3 := calculate_macd c
  let bb3 := calculate_bollinger_bands sq c
  { base := df
    SMA_20 := calculate_sma c 20
    SMA_50 := calculate_sma c 50
    SMA_200 := calculate_sma c 200
    EMA_12 := calculate_ema c 12
    EMA_26 := calculate_ema c 26
    RSI := calculate_rsi c
    MACD := macd3.1
    MACD_Signal := macd3.2.1
    MACD_Histogram := macd3.2.2
    BB_Upper := bb3.1
    BB_Middle := bb3.2.1
    BB_Lower := bb3.2.2
    VWAP := calculate_vwap df
    OBV := calculate_obv df }

/-- Comparison `a > b` on NaN-able series entries: false if either is NaN. -/
def ogtB : Option ℚ → Option ℚ → Bool
  | some a, some b => b < a
  | _, _ => false

/-- Comparison `a <= b` on NaN-able series entries: false if either is NaN. -/
def oleB : Option ℚ → Option ℚ → Bool
  | some a, some b => a ≤ b
  | _, _ => false

/-- Comparison `a < b` on NaN-able series entries: false if either is NaN. -/
def oltB : Option ℚ → Option ℚ → Bool
  | some a, some b => a < b
  | _, _ => false

/-- Comparison `a >= b` on NaN-able series entries: false if either is NaN. -/
def ogeB : Option ℚ → Option ℚ → Bool
  | some a, some b => b ≤ a
  | _, _ => false

/-- `series.shift(1)` read at index `i`: NaN at index 0. -/
def prevAt (s : List (Option ℚ)) (i : ℕ) : Option ℚ :=
  match i with
  | 0 => none
  | j + 1 => s.getD j none

/-- `identify_crossover(series1, series2)`: 1 for a bullish crossover
(`s1 > s2` and previously `s1 <= s2`), -1 for a bearish one, else 0; NaN
comparisons are false, and index 0 has no predecessor. -/
def identify_crossover (series1 series2 : List (Option ℚ)) : List ℤ :=
  (List.range series1.length).map fun i =>
    let a := series1.getD i none
    let b := series2.getD i none
    let ap := prevAt series1 i
    let bp := prevAt series2 i
    if ogtB a b && oleB ap bp then 1
    else if oltB a b && ogeB ap bp then -1
    else 0

/-- The frame returned by `identify_golden_death_cross`: the copied input
plus the two boolean flag columns. -/
structure CrossDf where
  base : Df
  Golden_Cross : List Bool
  Death_Cross : List Bool
deriving DecidableEq

/-- `identify_golden_death_cross(df)`: crossovers of SMA(50) against
SMA(200); Golden_Cross marks value 1, Death_Cross marks value -1. -/
def identify_golden_death_cross (df : Df) : CrossDf :=
  let sma_50 := calculate_sma (closes df) 50
  let sma_200 := calculate_sma (closes df) 200
  let crossover := identify_crossover sma_50 sma_200
  { base := df
    Golden_Cross := crossover.map (· == 1)
    Death_Cross := crossover.map (· == -1) }

/-! ## src/analysis/patterns.py (the parts the scanner uses) -/

/-- `detect_consolidation(df, window=20, threshold=0.05)`: rolling High
max and rolling Low min over the window; consolidating where
`(high-low)/((high+low)/2)*100 < threshold*100`. A NaN range (warm-up
prefix) or a zero midpoint follows float semantics: comparisons against
NaN are false. -/
def detect_consolidation (df : Df) (window : ℕ := 20)
    (threshold : ℚ := 1/20) : List Bool :=
  let rolling_high := rolling_max (highs df) window
  let rolling_low := rolling_min (lows df) window
  (List.range df.length).map fun i =>
    match rolling_high.getD i none, rolling_low.getD i none with
    | some h, some l =>
      let avg_price := (h + l) / 2
      fltB (fmul (fdiv (.fin (h - l)) (.fin avg_price)) (.fin 100))
           (.fin (threshold * 100))
    | _, _ => false

/-- The dict returned by `calculate_52_week_high_low`. The percentage
fields are floats computed by division (IEEE specials when the divisor is
zero); `near_52w_high` is the one-sided test that the dict itself holds,
`pct_from_high > -5`. -/
structure Week52 where
  high52 : ℚ
  low52 : ℚ
  current_price : ℚ
  pct_from_high : FVal
  pct_from_low : FVal
  near_52w_high : Bool
deriving DecidableEq

/-- `calculate_52_week_high_low(df)`: stats over the trailing
`min(252, len)` rows. The source indexes `iloc[-1]` (raises on an empty
frame); the embedding totalises with a default that callers never hit
(the scanner only calls this with at least 50 rows). -/
def calculate_52_week_high_low (df : Df) : Week52 :=
  let lookback := if df.length < 252 then df.length else 252
  let recent := df.drop (df.length - lookback)
  let high_52w := (highs recent).max?.getD 0
  let low_52w := (lows recent).min?.getD 0
  let current_price := (closes df).getLastD 0
  let pct_from_high :=
    fmul (fdiv (.fin (current_price - high_52w)) (.fin high_52w)) (.fin 100)
  let pct_from_low :=
    fmul (fdiv (.fin (current_price - low_52w)) (.fin low_52w)) (.fin 100)
  { high52 := high_52w
    low52 := low_52w
    current_price := current_price
    pct_from_high := pct_from_high
    pct_from_low := pct_from_low
    near_52w_high := fltB (.fin (-5)) pct_from_high }

/-! ## src/scanner/breakout_scanner.py -/

/-- `calculate_relative_volume(df, period=20)`: current volume over the
mean of the previous `period` volumes (`Volume.iloc[:-1].tail(period)`);
None for short frames or a zero average. -/
def calculate_relative_volume (df : Df) (period : ℕ := 20) : Option ℚ :=
  if df.length < period + 1 then none
  else
    let vols := volumes df
    let pool := (vols.dropLast).drop (vols.dropLast.length - period)
    let avg_volume := pool.sum / (period : ℚ)
    let current_volume := vols.getLastD 0
    if avg_volume = 0 then none else some (current_volume / avg_volume)

/-- `check_volume_surge(df, threshold=2.0)`: relative volume at least the
threshold; false when the relative volume is None. -/
def check_volume_surge (df : Df) (threshold : ℚ := 2) : Bool :=
  match calculate_relative_volume df with
  | none => false
  | some rel_vol => threshold ≤ rel_vol

/-- `check_rsi_signal(df, oversold=30, overbought=70)`: the signal from the
last RSI value; neutral when the series is empty or the value is NaN. -/
def check_rsi_signal (df : Df) (oversold : ℚ := 30)
    (overbought : ℚ := 70) : String :=
  match (calculate_rsi (closes df) 14).getLast? with
  | none => "neutral"
  | some current_rsi =>
    if current_rsi = .nan then "neutral"
    else if fltB current_rsi (.fin oversold) then "oversold"
    else if fltB (.fin overbought) current_rsi then "overbought"
    else "neutral"

/-- `check_ma_crossover(df)`: "none" below 200 rows; otherwise
"golden_cross" if any Golden_Cross flag is set in the last 5 rows, else
"death_cross" if any Death_Cross flag is, else "none". -/
def check_ma_crossover (df : Df) : String :=
  if df.length < 200 then "none"
  else
    let df_with_cross := identify_golden_death_cross df
    let g := df_with_cross.Golden_Cross
    let d := df_with_cross.Death_Cross
    if (g.drop (g.length - 5)).any id then "golden_cross"
    else if (d.drop (d.length - 5)).any id then "death_cross"
    else "none"

/-- `check_near_52w_high(df, threshold=5.0)`:
abs of pct_from_high at most the threshold (note: two-sided and inclusive,
unlike the one-sided `near_52w_high` key of the stats dict itself). -/
def check_near_52w_high (df : Df) (threshold : ℚ := 5) : Bool :=
  fleB (fabs (calculate_52_week_high_low df).pct_from_high) (.fin threshold)

/-- The dict returned by `check_consolidation_breakout`. -/
structure ConsoDict where
  in_consolidation : Bool
  breaking_out : Bool
deriving DecidableEq

/-- The expression `((Close.iloc[-1] - Close.iloc[-5]) / Close.iloc[-5]) * 100`
of `check_consolidation_breakout` (a float: division by a zero close gives
the IEEE special). -/
def recent_close_change (df : Df) : FVal :=
  let c := closes df
  fmul (fdiv (.fin (c.getLastD 0 - c.getD (c.length - 5) 0))
             (.fin (c.getD (c.length - 5) 0)))
       (.fin 100)

/-- The local `was_consolidating` of `check_consolidation_breakout`:
`consolidation.iloc[-10:-1].any() if len(consolidation) > 10 else False`
(the slice covers positions -10 .. -2). -/
def was_consolidating (df : Df) : Bool :=
  let consolidation := detect_consolidation df 20
  if 10 < consolidation.length then
    ((consolidation.drop (consolidation.length - 10)).take 9).any id
  else false

/-- `check_consolidation_breakout(df)`: breaking out when the consolidation
flag was set somewhere in `iloc[-10:-1]` (only checked when more than 10
rows exist) but is not set at the last row, and — when more than 5 rows
exist — the close rose strictly more than 2% from `Close.iloc[-5]`. -/
def check_consolidation_breakout (df : Df) : ConsoDict :=
  let consolidation := detect_consolidation df 20
  if consolidation.length < 2 then
    { in_consolidation := false, breaking_out := false }
  else
    let currently_consolidating := consolidation.getLastD false
    let breaking_out := was_consolidating df && !currently_consolidating
    { in_consolidation := currently_consolidating
      breaking_out :=
        if breaking_out && 5 < df.length then
          breaking_out && fltB (.fin 2) (recent_close_change df)
        else breaking_out }

/-- One row of the scan results table (the signals dict of `scan_ticker`).
`rsi_value` is Option-al because the source only sets the key when the RSI
series is non-empty; the percentage changes are floats or None. -/
structure ScanRec where
  ticker : String
  current_price : ℚ
  relative_volume : Option ℚ
  volume_surge : Bool
  rsi_signal : String
  ma_crossover : String
  near_52w_high : Bool
  consolidation : ConsoDict
  price_change_5d : Option FVal
  price_change_20d : Option FVal
  rsi_value : Option FVal
deriving DecidableEq

/-- The percentage change from `Close.iloc[-(n+1)]` to `Close.iloc[-1]`
(float division). -/
def price_change (df : Df) (n : ℕ) : FVal :=
  let c := closes df
  fmul (fdiv (.fin (c.getLastD 0 - c.getD (c.length - (n + 1)) 0))
             (.fin (c.getD (c.length - (n + 1)) 0)))
       (.fin 100)

/-- `scan_ticker(ticker)`: fetches through the oracle; `None` when the fetch
raised (the `except` clause) or the frame is empty or shorter than 50 rows
(an empty frame has length 0 < 50, so one test covers `df.empty or
len(df) < 50`). Otherwise the full signals dict. -/
def scan_ticker (fetch : String → Except Unit Df) (ticker : String) :
    Option ScanRec :=
  match fetch ticker with
  | .error _ => none
  | .ok df =>
    if df.length < 50 then none
    else
      some
        { ticker := ticker
          current_price := (closes df).getLastD 0
          relative_volume := calculate_relative_volume df
          volume_surge := check_volume_surge df
          rsi_signal := check_rsi_signal df
          ma_crossover := check_ma_crossover df
          near_52w_high := check_near_52w_high df
          consolidation := check_consolidation_breakout df
          price_change_5d :=
            if 5 < df.length then some (price_change df 5) else none
          price_change_20d :=
            if 20 < df.length then some (price_change df 20) else none
          rsi_value := (calculate_rsi (closes df) 14).getLast? }

/-- A value of the optional `filters` dict of `scan_multiple_tickers`:
the source distinguishes `bool` (tested first — a Python bool is also an
int) from `int`/`float`; entries of any other type are ignored by the
source and are not representable here. -/
inductive FilterVal where
  | fbool : Bool → FilterVal
  | fnum : ℚ → FilterVal
deriving DecidableEq

/-- One cell of the scan results DataFrame, by column dtype. -/
inductive Cell where
  | cstr : String → Cell
  | cq : ℚ → Cell
  | coq : Option ℚ → Cell
  | cb : Bool → Cell
  | cdict : ConsoDict → Cell
  | cfv : Option FVal → Cell
deriving DecidableEq

/-- The column names of the scan results DataFrame (the keys of the
signals dict, in insertion order). -/
def scanColumns : List String :=
  ["ticker", "current_price", "relative_volume", "volume_surge",
   "rsi_signal", "ma_crossover", "near_52w_high", "consolidation",
   "price_change_5d", "price_change_20d", "rsi_value"]

/-- Read one column of one row. -/
def getCol (r : ScanRec) : String → Cell
  | "ticker" => .cstr r.ticker
  | "current_price" => .cq r.current_price
  | "relative_volume" => .coq r.relative_volume
  | "volume_surge" => .cb r.volume_surge
  | "rsi_signal" => .cstr r.rsi_signal
  | "ma_crossover" => .cstr r.ma_crossover
  | "near_52w_high" => .cb r.near_52w_high
  | "consolidation" => .cdict r.consolidation
  | "price_change_5d" => .cfv r.price_change_5d
  | "price_change_20d" => .cfv r.price_change_20d
  | "rsi_value" => .cfv r.rsi_value
  | _ => .cstr ""

/-- The pandas elementwise `column == bool_value` test: a bool compares
directly, numeric columns compare against 1.0/0.0 (numpy treats the bool
as a number), NaN/None compare false, and object columns holding strings
or dicts compare false. -/
def cellEqBool : Cell → Bool → Bool
  | .cb b, v => b == v
  | .cq q, v => q == (if v then 1 else 0)
  | .coq (some q), v => q == (if v then 1 else 0)
  | .coq none, _ => false
  | .cfv (some (.fin q)), v => q == (if v then 1 else 0)
  | .cfv _, _ => false
  | .cstr _, _ => false
  | .cdict _, _ => false

/-- The pandas elementwise `column >= number` test. Numeric columns
compare (NaN false, a bool counts as 1/0); object columns holding strings
or dicts raise a TypeError, modelled as `Except.error`. -/
def cellGeNum : Cell → ℚ → Except Unit Bool
  | .cb b, v => .ok (v ≤ (if b then (1 : ℚ) else 0))
  | .cq q, v => .ok (v ≤ q)
  | .coq (some q), v => .ok (v ≤ q)
  | .coq none, _ => .ok false
  | .cfv (some f), v => .ok (fleB (.fin v) f)
  | .cfv none, _ => .ok false
  | .cstr _, _ => .error ()
  | .cdict _, _ => .error ()

/-- One iteration of the filter loop of `scan_multiple_tickers`: keys that
are not columns are skipped; a bool value keeps rows whose column equals
it; a numeric value keeps rows whose column is at least it (and raises
where Python would). -/
def apply_filter (key : String) (v : FilterVal) (rows : List ScanRec) :
    Except Unit (List ScanRec) :=
  if scanColumns.contains key then
    match v with
    | .fbool b => .ok (rows.filter fun r => cellEqBool (getCol r key) b)
    | .fnum q => rows.filterM fun r => cellGeNum (getCol r key) q
  else .ok rows

/-- `scan_multiple_tickers(tickers, filters=None)`: scans each ticker in
list order, collects the non-None results, returns an empty table when
every ticker failed, and otherwise applies the filters in order. The
`Except` layer carries the one way the function can raise (a numeric
filter against an object column); with `filters = none` it never does. -/
def scan_multiple_tickers (fetch : String → Except Unit Df)
    (tickers : List String)
    (filters : Option (List (String × FilterVal)) := none) :
    Except Unit (List ScanRec) :=
  let results := tickers.filterMap (scan_ticker fetch)
  if results.isEmpty then .ok []
  else
    match filters with
    | none => .ok results
    | some fs => fs.foldlM (fun rows kv => apply_filter kv.1 kv.2 rows) results

/-- One row of the table returned by `find_breakout_candidates`: the scan
row plus the two columns the function adds (`is_breaking_out` before the
candidate filter, `breakout_score` after it). -/
structure ScoredRec extends ScanRec where
  is_breaking_out : Bool
  breakout_score : ℕ
deriving DecidableEq

/-- The candidate filter of `find_breakout_candidates`: breaking out of
consolidation, or near the 52-week high with a volume surge, or a golden
cross with relative volume above 1.5 (a None relative volume compares
false). -/
def isBreakoutCandidate (r : ScanRec) : Bool :=
  r.consolidation.breaking_out
  || (r.near_52w_high && r.volume_surge)
  || ((r.ma_crossover == "golden_cross")
      && (match r.relative_volume with
          | some rv => decide ((3 : ℚ)/2 < rv)
          | none => false))

/-- The composite score column `breakout_score`:
`is_breaking_out*3 + near_52w_high*2 + volume_surge*2 +
(ma_crossover = golden_cross)*2`. -/
def breakoutScoreOf (r : ScanRec) : ℕ :=
  (if r.consolidation.breaking_out then 3 else 0)
  + (if r.near_52w_high then 2 else 0)
  + (if r.volume_surge then 2 else 0)
  + (if r.ma_crossover = "golden_cross" then 2 else 0)

/-- `find_breakout_candidates(tickers)`: scan (no filters — that path of
`scan_multiple_tickers` never raises, so the error branch below is
unreachable), keep the candidates, add the score column, and
sort_values by breakout_score, descending. pandas implements the
descending sort as a double reversal around an ascending numpy argsort, so
with a stable kernel it is a stable descending sort; the numpy default
quicksort kernel is its stable insertion sort only up to 16 elements,
and the tie order it produces beyond that is numpy-internal and is NOT
modelled here (see the C2 record): the embedding uses a stable descending
mergeSort. -/
def find_breakout_candidates (fetch : String → Except Unit Df)
    (tickers : List String) : List ScoredRec :=
  match scan_multiple_tickers fetch tickers none with
  | .error _ => []
  | .ok rows =>
    let withFlag := rows.map fun r =>
      ({ toScanRec := r
         is_breaking_out := r.consolidation.breaking_out
         breakout_score := 0 } : ScoredRec)
    let breakout_candidates :=
      withFlag.filter fun r => isBreakoutCandidate r.toScanRec
    let scored := breakout_candidates.map fun r =>
      { r with breakout_score := breakoutScoreOf r.toScanRec }
    scored.mergeSort fun a b => b.breakout_score ≤ a.breakout_score

/-! ## src/options/greeks.py -/

/-- Oracles for the numpy/scipy transcendentals the Black-Scholes formulas
use (`np.log`, `np.sqrt`, `np.exp`, `norm.cdf`, `norm.pdf`): these are
external library calls, modelled as parameters; the `T <= 0` branches the
claims are about never consult them. -/
structure MathFns where
  log : ℚ → ℚ
  sqrt : ℚ → ℚ
  exp : ℚ → ℚ
  cdf : ℚ → ℚ
  pdf : ℚ → ℚ

/-- The `d1` expression shared by the Black-Scholes formulas. -/
def bsD1 (m : MathFns) (S K T r sigma : ℚ) : ℚ :=
  (m.log (S / K) + (r + sigma ^ 2 / 2) * T) / (sigma * m.sqrt T)

/-- `black_scholes_call(S, K, T, r, sigma)`: intrinsic value at `T <= 0`,
else the closed form. -/
def black_scholes_call (m : MathFns) (S K T r sigma : ℚ) : ℚ :=
  if T ≤ 0 then max (S - K) 0
  else
    let d1 := bsD1 m S K T r sigma
    let d2 := d1 - sigma * m.sqrt T
    S * m.cdf d1 - K * m.exp (-(r * T)) * m.cdf d2

/-- `black_scholes_put(S, K, T, r, sigma)`. -/
def black_scholes_put (m : MathFns) (S K T r sigma : ℚ) : ℚ :=
  if T ≤ 0 then max (K - S) 0
  else
    let d1 := bsD1 m S K T r sigma
    let d2 := d1 - sigma * m.sqrt T
    K * m.exp (-(r * T)) * m.cdf (-d2) - S * m.cdf (-d1)

/-- `calculate_delta(S, K, T, r, sigma, option_type)`: at `T <= 0`
the source returns `1.0 if S > K else 0.0` for a call and
`-1.0 if S < K else 0.0` otherwise; any `option_type` other than the
string "call" takes the put branch, as in the source. -/
def calculate_delta (m : MathFns) (S K T r sigma : ℚ)
    (option_type : String := "call") : ℚ :=
  if T ≤ 0 then
    if option_type = "call" then (if K < S then 1 else 0)
    else (if S < K then -1 else 0)
  else
    let d1 := bsD1 m S K T r sigma
    if option_type = "call" then m.cdf d1 else m.cdf d1 - 1

/-- `calculate_gamma(S, K, T, r, sigma)`: 0 at `T <= 0`. The `T > 0`
branch divides over ℚ (total division; the claims only touch `T <= 0`). -/
def calculate_gamma (m : MathFns) (S K T r sigma : ℚ) : ℚ :=
  if T ≤ 0 then 0
  else
    let d1 := bsD1 m S K T r sigma
    m.pdf d1 / (S * sigma * m.sqrt T)

/-- `calculate_theta(S, K, T, r, sigma, option_type)`: 0 at
`T <= 0`, else the closed form scaled to a per-day value. -/
def calculate_theta (m : MathFns) (S K T r sigma : ℚ)
    (option_type : String := "call") : ℚ :=
  if T ≤ 0 then 0
  else
    let d1 := bsD1 m S K T r sigma
    let d2 := d1 - sigma * m.sqrt T
    let theta :=
      if option_type = "call" then
        -S * m.pdf d1 * sigma / (2 * m.sqrt T)
          - r * K * m.exp (-(r * T)) * m.cdf d2
      else
        -S * m.pdf d1 * sigma / (2 * m.sqrt T)
          + r * K * m.exp (-(r * T)) * m.cdf (-d2)
    theta / 365

/-- `calculate_vega(S, K, T, r, sigma)`: 0 at `T <= 0`, else the closed
form scaled to a per-1%-IV value. -/
def calculate_vega (m : MathFns) (S K T r sigma : ℚ) : ℚ :=
  if T ≤ 0 then 0
  else
    let d1 := bsD1 m S K T r sigma
    S * m.pdf d1 * m.sqrt T / 100

/-- `calculate_rho(S, K, T, r, sigma, option_type)`: 0 at `T <= 0`,
else the closed form scaled to a per-1%-rate value. -/
def calculate_rho (m : MathFns) (S K T r sigma : ℚ)
    (option_type : String := "call") : ℚ :=
  if T ≤ 0 then 0
  else
    let d1 := bsD1 m S K T r sigma
    let d2 := d1 - sigma * m.sqrt T
    if option_type = "call" then K * T * m.exp (-(r * T)) * m.cdf d2 / 100
    else -K * T * m.exp (-(r * T)) * m.cdf (-d2) / 100

/-- The dict returned by `calculate_all_greeks`. -/
structure GreeksResult where
  delta : ℚ
  gamma : ℚ
  theta : ℚ
  vega : ℚ
  rho : ℚ
  theoretical_price : ℚ
deriving DecidableEq

/-- `calculate_all_greeks(S, K, T, r, sigma, option_type)`: the five
Greeks plus the theoretical price (call price for "call", put price for
anything else). -/
def calculate_all_greeks (m : MathFns) (S K T r sigma : ℚ)
    (option_type : String := "call") : GreeksResult :=
  { delta := calculate_delta m S K T r sigma option_type
    gamma := calculate_gamma m S K T r sigma
    theta := calculate_theta m S K T r sigma option_type
    vega := calculate_vega m S K T r sigma
    rho := calculate_rho m S K T r sigma option_type
    theoretical_price :=
      if option_type = "call" then black_scholes_call m S K T r sigma
      else black_scholes_put m S K T r sigma }

/-! ## Concrete frames and oracles used by witnesses and counterexamples -/

/-- A flat 100-price bar with the given volume. -/
def flatBar (v : ℚ) : Bar :=
  { open_ := 100, high := 100, low := 100, close := 100, volume := v }

/-- 50 flat bars, the last with doubled volume: a clean
near-52-week-high-with-volume-surge scan row. -/
def demoDf : Df := List.replicate 49 (flatBar 1) ++ [flatBar 2]

/-- A fetch oracle knowing only the ticker AAA. -/
def demoFetch : String → Except Unit Df :=
  fun t => if t = "AAA" then .ok demoDf else .error ()

/-- The row the demo scan produces (checked by `decide` where used). -/
def demoRec : ScoredRec :=
  { ticker := "AAA", current_price := 100, relative_volume := some 2,
    volume_surge := true, rsi_signal := "neutral", ma_crossover := "none",
    near_52w_high := true, consolidation := ⟨true, false⟩,
    price_change_5d := some (.fin 0), price_change_20d := some (.fin 0),
    rsi_value := some .nan, is_breaking_out := false, breakout_score := 4 }

/-- 50 bars whose 52-week high is 100 while the last close is 95: the
percentage from the high is exactly -5. -/
def c3df : Df :=
  List.replicate 49 (flatBar 1) ++
    [{ open_ := 100, high := 100, low := 90, close := 95, volume := 1 }]

/-- 21 bars: flat consolidation for 20 bars, then a wide-range bar whose
close is exactly 2% above the fifth-last close. -/
def cxdf : Df :=
  List.replicate 20 (flatBar 1) ++
    [{ open_ := 100, high := 110, low := 100, close := 102, volume := 1 }]

/-- 21 bars like `cxdf` but with a 3% rise: a genuine breakout. -/
def w5df : Df :=
  List.replicate 20 (flatBar 1) ++
    [{ open_ := 100, high := 110, low := 100, close := 103, volume := 1 }]

/-- 15 flat closes: a defined RSI window with zero average gain and loss. -/
def flatCloses : List ℚ := List.replicate 15 100

/-- 16 strictly increasing closes: a defined RSI window with zero average
loss and positive average gain. -/
def risingCloses : List ℚ := (List.range 16).map fun i => (i : ℚ)

/-- Identity oracles for the Black-Scholes transcendentals (the claims
never look at the `T > 0` branch that would use them). -/
def m0 : MathFns := { log := id, sqrt := id, exp := id, cdf := id, pdf := id }

/-! ## Helper lemmas -/

/-- Decidable equality for `Except`, so that concrete scan outcomes can be
checked by evaluation. -/
instance exceptDecEq {ε α : Type _} [DecidableEq ε] [DecidableEq α] :
    DecidableEq (Except ε α) := fun x y =>
  match x, y with
  | .error a, .error b =>
    if h : a = b then isTrue (h ▸ rfl)
    else isFalse fun hc => h (Except.error.inj hc)
  | .error _, .ok _ => isFalse fun hc => Except.noConfusion hc
  | .ok _, .error _ => isFalse fun hc => Except.noConfusion hc
  | .ok a, .ok b =>
    if h : a = b then isTrue (h ▸ rfl)
    else isFalse fun hc => h (Except.ok.inj hc)

theorem getD_range_map {α : Type _} (f : ℕ → α) (n i : ℕ) (d : α) :
    ((List.range n).map f).getD i d = if i < n then f i else d := by
  by_cases h : i < n
  · rw [List.getD_eq_getElem?_getD, List.getElem?_map, List.getElem?_range h]
    simp [h]
  · rw [List.getD_eq_getElem?_getD, List.getElem?_eq_none (by simpa using h)]
    simp [h]

theorem getD_true_iff (l : List Bool) (i : ℕ) :
    l.getD i false = true ↔ l[i]? = some true := by
  rcases h : l[i]? with _ | b
  · simp [List.getD_eq_getElem?_getD, h]
  · cases b <;> simp [List.getD_eq_getElem?_getD, h]

theorem getLastD_eq_getD (l : List α) (d : α) :
    l.getLastD d = l.getD (l.length - 1) d := by
  rw [List.getLastD_eq_getLast?, List.getLast?_eq_getElem?,
    List.getD_eq_getElem?_getD]

theorem any_drop_iff (l : List Bool) (k : ℕ) :
    (l.drop k).any id = true ↔ ∃ i, k ≤ i ∧ l[i]? = some true := by
  rw [List.any_eq_true]
  constructor
  · rintro ⟨b, hb, hid⟩
    obtain rfl : b = true := hid
    obtain ⟨n, hn⟩ := List.mem_iff_getElem?.1 hb
    rw [List.getElem?_drop] at hn
    exact ⟨k + n, Nat.le_add_right _ _, hn⟩
  · rintro ⟨i, hki, hi⟩
    refine ⟨true, ?_, rfl⟩
    rw [List.mem_iff_getElem?]
    refine ⟨i - k, ?_⟩
    rw [List.getElem?_drop, Nat.add_sub_cancel' hki]
    exact hi

theorem any_take_drop_iff (l : List Bool) (a b : ℕ) :
    ((l.drop a).take b).any id = true ↔
      ∃ i, a ≤ i ∧ i < a + b ∧ l[i]? = some true := by
  rw [List.any_eq_true]
  constructor
  · rintro ⟨x, hx, hid⟩
    obtain rfl : x = true := hid
    obtain ⟨n, hn⟩ := List.mem_iff_getElem?.1 hx
    have hnb : n < b := by
      by_contra hnb
      have hlen : ((l.drop a).take b).length ≤ n := by
        rw [List.length_take]
        exact le_trans (Nat.min_le_left _ _) (le_of_not_lt hnb)
      rw [List.getElem?_eq_none hlen] at hn
      exact Option.noConfusion hn
    rw [List.getElem?_take_of_lt hnb, List.getElem?_drop] at hn
    exact ⟨a + n, Nat.le_add_right _ _, by omega, hn⟩
  · rintro ⟨i, hai, hib, hi⟩
    refine ⟨true, ?_, rfl⟩
    rw [List.mem_iff_getElem?]
    refine ⟨i - a, ?_⟩
    rw [List.getElem?_take_of_lt (by omega), List.getElem?_drop,
      Nat.add_sub_cancel' hai]
    exact hi

/-! ## Claim theorems -/

/-- C3 (amended): the `near_52w_high` flag the scan reports
(`check_near_52w_high`) is true exactly when the percentage from the
52-week high lies in the closed two-sided band [-5, 5] — the source tests
`abs(pct_from_high) <= 5`, not the one-sided strict `pct_from_high > -5`
of the stats dict. -/
theorem near_52w_high_two_sided (df : Df) :
    check_near_52w_high df =
      (fleB (.fin (-5)) (calculate_52_week_high_low df).pct_from_high
        && fleB (calculate_52_week_high_low df).pct_from_high (.fin 5)) := by
  rw [check_near_52w_high]
  rcases (calculate_52_week_high_low df).pct_from_high with _ | _ | _ | q
  · rfl
  · rfl
  · rfl
  · show (decide (|q| ≤ 5)) = (decide ((-5 : ℚ) ≤ q) && decide (q ≤ 5))
    rw [← Bool.decide_and, decide_eq_decide]
    exact abs_le

/-- C3 (counterexample): on a 50-bar frame whose 52-week high is 100 and
whose last close is 95, the percentage from the high is exactly -5; the
scan flag `check_near_52w_high` is true there, while the claimed one-sided
strict condition `pct_from_high > -5` (what the stats dict itself stores as
`near_52w_high` key) is false — so the flag is not true exactly when
pct_from_high > -5. -/
theorem near_52w_high_not_one_sided :
    (calculate_52_week_high_low c3df).pct_from_high = .fin (-5)
    ∧ check_near_52w_high c3df = true
    ∧ (calculate_52_week_high_low c3df).near_52w_high = false := by
  refine ⟨by decide!, by decide!, by decide!⟩

/-- C7: at `T ≤ 0` the Greeks dict degenerates: the theoretical price is
the intrinsic value (`max (S-K) 0` for a call, `max (K-S) 0` otherwise),
gamma, theta, vega and rho are all 0, and delta is 1 for an in-the-money
call (S > K), -1 for an in-the-money put (S < K), and 0 otherwise. -/
theorem greeks_at_expiry (m : MathFns) (S K T r sigma : ℚ)
    (option_type : String) (hT : T ≤ 0) :
    (calculate_all_greeks m S K T r sigma option_type).theoretical_price
      = (if option_type = "call" then max (S - K) 0 else max (K - S) 0)
    ∧ (calculate_all_greeks m S K T r sigma option_type).gamma = 0
    ∧ (calculate_all_greeks m S K T r sigma option_type).theta = 0
    ∧ (calculate_all_greeks m S K T r sigma option_type).vega = 0
    ∧ (calculate_all_greeks m S K T r sigma option_type).rho = 0
    ∧ (calculate_all_greeks m S K T r sigma option_type).delta
      = (if option_type = "call" then (if K < S then 1 else 0)
         else (if S < K then -1 else 0)) := by
  refine ⟨?_, ?_, ?_, ?_, ?_, ?_⟩ <;>
    simp [calculate_all_greeks, calculate_delta, calculate_gamma,
      calculate_theta, calculate_vega, calculate_rho, black_scholes_call,
      black_scholes_put, hT]

/-- C7 (witness): concrete instance S = 2, K = 1, T = 0 for a call. -/
theorem greeks_at_expiry_witness :
    (calculate_all_greeks m0 2 1 0 0 1 "call").theoretical_price = 1
    ∧ (calculate_all_greeks m0 2 1 0 0 1 "call").gamma = 0
    ∧ (calculate_all_greeks m0 2 1 0 0 1 "call").theta = 0
    ∧ (calculate_all_greeks m0 2 1 0 0 1 "call").vega = 0
    ∧ (calculate_all_greeks m0 2 1 0 0 1 "call").rho = 0
    ∧ (calculate_all_greeks m0 2 1 0 0 1 "call").delta = 1 := by
  have h := greeks_at_expiry m0 2 1 0 0 1 "call" (le_refl 0)
  refine ⟨?_, h.2.1, h.2.2.1, h.2.2.2.1, h.2.2.2.2.1, ?_⟩
  · have := h.1
    norm_num at this
    exact this
  · have := h.2.2.2.2.2
    norm_num at this
    exact this

/-- C10: at `T ≤ 0` with `S = K`, `calculate_delta` returns 0 for the call
branch and 0 for the put branch (the at-the-money-at-expiry case the
S>K / S<K dichotomy of the spec leaves unstated). -/
theorem delta_at_expiry_atm (m : MathFns) (S K T r sigma : ℚ)
    (hT : T ≤ 0) (hSK : S = K) :
    calculate_delta m S K T r sigma "call" = 0
    ∧ calculate_delta m S K T r sigma "put" = 0 := by
  subst hSK
  constructor <;> simp [calculate_delta, hT]

/-- C10 (witness): concrete instance S = K = 5, T = 0. -/
theorem delta_at_expiry_atm_witness :
    calculate_delta m0 5 5 0 0 1 "call" = 0
    ∧ calculate_delta m0 5 5 0 0 1 "put" = 0 :=
  delta_at_expiry_atm m0 5 5 0 0 1 (le_refl 0) rfl

/-- C6: with no filters the batch scan returns normally for every fetch
oracle and ticker list (`Except.ok` — it never raises): the result is
exactly the in-order `filterMap` of the per-ticker scans; a ticker whose
fetch raised, or whose frame is shorter than 50 rows, scans to `none` and
is therefore omitted; each kept record carries its ticker, so records
appear one per successful ticker in the original list order; and if every
ticker fails the scan returns the empty table, not an error. -/
theorem scan_multiple_tickers_robust (fetch : String → Except Unit Df)
    (tickers : List String) :
    scan_multiple_tickers fetch tickers none
      = .ok (tickers.filterMap (scan_ticker fetch))
    ∧ (∀ t e, fetch t = .error e → scan_ticker fetch t = none)
    ∧ (∀ t df, fetch t = .ok df → df.length < 50 →
        scan_ticker fetch t = none)
    ∧ (∀ t r, scan_ticker fetch t = some r → r.ticker = t)
    ∧ ((∀ t ∈ tickers, scan_ticker fetch t = none) →
        scan_multiple_tickers fetch tickers none = .ok []) := by
  have hmain : scan_multiple_tickers fetch tickers none
      = .ok (tickers.filterMap (scan_ticker fetch)) := by
    unfold scan_multiple_tickers
    by_cases h : (tickers.filterMap (scan_ticker fetch)).isEmpty
    · rw [if_pos h, List.isEmpty_iff.mp h]
    · rw [if_neg h]
  refine ⟨hmain, ?_, ?_, ?_, ?_⟩
  · intro t e h
    simp [scan_ticker, h]
  · intro t df h hlen
    simp [scan_ticker, h, hlen]
  · intro t r h
    unfold scan_ticker at h
    rcases hf : fetch t with e | df <;> rw [hf] at h <;> dsimp only at h
    · exact Option.noConfusion h
    · by_cases hlen : df.length < 50
      · rw [if_pos hlen] at h
        exact Option.noConfusion h
      · rw [if_neg hlen] at h
        obtain rfl := Option.some.inj h
        rfl
  · intro hall
    rw [hmain, List.filterMap_eq_nil_iff.mpr hall]

/-- C6 (witness): a scan in which every fetch raises returns the empty
table. -/
theorem scan_multiple_tickers_robust_witness :
    scan_multiple_tickers (fun _ => .error ()) ["AAPL", "MSFT"] none
      = .ok [] :=
  (scan_multiple_tickers_robust (fun _ => .error ()) ["AAPL", "MSFT"]).2.2.2.2
    (fun _ _ => rfl)

theorem length_rolling_mean (xs : List ℚ) (w : ℕ) :
    (rolling_mean xs w).length = xs.length := by
  simp [rolling_mean]

theorem length_rolling_std (sq : ℚ → ℚ) (xs : List ℚ) (w : ℕ) :
    (rolling_std sq xs w).length = xs.length := by
  simp [rolling_std]

theorem length_cumsum (xs : List ℚ) : (cumsum xs).length = xs.length := by
  simp [cumsum]

theorem length_emaGo (k : ℚ) (p : ℚ) (xs : List ℚ) :
    (emaGo k p xs).length = xs.length := by
  induction xs generalizing p with
  | nil => rfl
  | cons x xs ih => simp [emaGo, ih]

theorem length_calculate_ema (xs : List ℚ) (p : ℕ) :
    (calculate_ema xs p).length = xs.length := by
  cases xs <;> simp [calculate_ema, length_emaGo]

theorem length_calculate_rsi (xs : List ℚ) (p : ℕ) :
    (calculate_rsi xs p).length = xs.length := by
  simp [calculate_rsi]

theorem length_obvGo (c o : ℚ) (bs : List Bar) :
    (obvGo c o bs).length = bs.length := by
  induction bs generalizing c o with
  | nil => rfl
  | cons b bs ih => simp [obvGo, ih]

theorem length_calculate_obv (df : Df) :
    (calculate_obv df).length = df.length := by
  cases df <;> simp [calculate_obv, length_obvGo]

theorem length_calculate_vwap (df : Df) :
    (calculate_vwap df).length = df.length := by
  simp [calculate_vwap, length_cumsum, volumes]

/-- C9: `add_all_indicators` is a pure function of the frame it is given:
the base columns of the output are exactly the input frame (line 259 of
technical.py copies, and neither the function nor its callees ever assign
into the argument), two calls on the same input give equal frames (the
embedding of the Python function reads nothing but its argument — no
globals, no I/O — so it is deterministic by construction), and every
derived indicator column is a parallel series positionally aligned with
the input (same length). -/
theorem add_all_indicators_pure (sq : ℚ → ℚ) (df : Df) :
    (add_all_indicators sq df).base = df
    ∧ add_all_indicators sq df = add_all_indicators sq df
    ∧ (add_all_indicators sq df).SMA_20.length = df.length
    ∧ (add_all_indicators sq df).SMA_50.length = df.length
    ∧ (add_all_indicators sq df).SMA_200.length = df.length
    ∧ (add_all_indicators sq df).EMA_12.length = df.length
    ∧ (add_all_indicators sq df).EMA_26.length = df.length
    ∧ (add_all_indicators sq df).RSI.length = df.length
    ∧ (add_all_indicators sq df).MACD.length = df.length
    ∧ (add_all_indicators sq df).MACD_Signal.length = df.length
    ∧ (add_all_indicators sq df).MACD_Histogram.length = df.length
    ∧ (add_all_indicators sq df).BB_Upper.length = df.length
    ∧ (add_all_indicators sq df).BB_Middle.length = df.length
    ∧ (add_all_indicators sq df).BB_Lower.length = df.length
    ∧ (add_all_indicators sq df).VWAP.length = df.length
    ∧ (add_all_indicators sq df).OBV.length = df.length := by
  refine ⟨rfl, rfl, ?_, ?_, ?_, ?_, ?_, ?_, ?_, ?_, ?_, ?_, ?_, ?_, ?_, ?_⟩ <;>
    simp [add_all_indicators, calculate_sma, calculate_macd,
      calculate_bollinger_bands, length_rolling_mean, length_rolling_std,
      length_calculate_ema, length_calculate_rsi, length_calculate_vwap,
      length_calculate_obv, closes]

/-- C1: every record `find_breakout_candidates` returns carries the
composite score `3*(breaking_out) + 2*(near_52w_high) + 2*(volume_surge)
+ 2*(ma_crossover = golden_cross)`; in particular a record with
breaking_out, near_52w_high and a golden cross but no volume surge scores
exactly 3 + 2 + 0 + 2 = 7. -/
theorem breakout_score_formula (fetch : String → Except Unit Df)
    (tickers : List String) (r : ScoredRec)
    (hr : r ∈ find_breakout_candidates fetch tickers) :
    r.breakout_score =
      (if r.consolidation.breaking_out then 3 else 0)
      + (if r.near_52w_high then 2 else 0)
      + (if r.volume_surge then 2 else 0)
      + (if r.ma_crossover = "golden_cross" then 2 else 0)
    ∧ (r.consolidation.breaking_out = true → r.near_52w_high = true →
        r.volume_surge = false → r.ma_crossover = "golden_cross" →
        r.breakout_score = 7) := by
  unfold find_breakout_candidates at hr
  rcases hsc : scan_multiple_tickers fetch tickers none with e | rows <;>
    rw [hsc] at hr <;> dsimp only at hr
  · simp at hr
  · rw [List.mem_mergeSort] at hr
    obtain ⟨a, ha, rfl⟩ := List.mem_map.1 hr
    refine ⟨rfl, ?_⟩
    intro h1 h2 h3 h4
    dsimp only at h1 h2 h3 h4 ⊢
    simp [breakoutScoreOf, h1, h2, h3, h4]

/-- C1 (witness): the demo scan yields one candidate whose stored score
matches the formula (= 4 there). -/
theorem breakout_score_formula_witness :
    demoRec.breakout_score =
      (if demoRec.consolidation.breaking_out then 3 else 0)
      + (if demoRec.near_52w_high then 2 else 0)
      + (if demoRec.volume_surge then 2 else 0)
      + (if demoRec.ma_crossover = "golden_cross" then 2 else 0) := by
  have hmem : demoRec ∈ find_breakout_candidates demoFetch ["AAA"] := by
    unfold find_breakout_candidates
    rw [show scan_multiple_tickers demoFetch ["AAA"] none
        = .ok [demoRec.toScanRec] from by decide!]
    exact List.mem_mergeSort.2 (by decide!)
  exact (breakout_score_formula demoFetch ["AAA"] demoRec hmem).1

/-- C8: `check_ma_crossover` reports "none" whenever the frame has fewer
than 200 rows; with at least 200 rows it reports "golden_cross" exactly
when some Golden_Cross flag is set among the most recent 5 rows,
"death_cross" exactly when no golden flag but some Death_Cross flag is set
in that window, and "none" exactly when neither is — so golden wins when
both crossovers occur inside the window. -/
theorem ma_crossover_window_rule (df : Df) :
    (df.length < 200 → check_ma_crossover df = "none")
    ∧ (200 ≤ df.length →
        ((check_ma_crossover df = "golden_cross" ↔
          ∃ i, (identify_golden_death_cross df).Golden_Cross.length - 5 ≤ i
            ∧ (identify_golden_death_cross df).Golden_Cross[i]? = some true)
         ∧ (check_ma_crossover df = "death_cross" ↔
            (¬ ∃ i,
              (identify_golden_death_cross df).Golden_Cross.length - 5 ≤ i
              ∧ (identify_golden_death_cross df).Golden_Cross[i]?
                = some true)
            ∧ ∃ i,
              (identify_golden_death_cross df).Death_Cross.length - 5 ≤ i
              ∧ (identify_golden_death_cross df).Death_Cross[i]?
                = some true)
         ∧ (check_ma_crossover df = "none" ↔
            (¬ ∃ i,
              (identify_golden_death_cross df).Golden_Cross.length - 5 ≤ i
              ∧ (identify_golden_death_cross df).Golden_Cross[i]?
                = some true)
            ∧ ¬ ∃ i,
              (identify_golden_death_cross df).Death_Cross.length - 5 ≤ i
              ∧ (identify_golden_death_cross df).Death_Cross[i]?
                = some true))) := by
  constructor
  · intro h
    rw [check_ma_crossover, if_pos h]
  · intro h
    rw [check_ma_crossover, if_neg (not_lt.2 h)]
    dsimp only
    set g := (identify_golden_death_cross df).Golden_Cross with hgdef
    set d := (identify_golden_death_cross df).Death_Cross with hddef
    by_cases hga : (g.drop (g.length - 5)).any id = true
    · rw [if_pos hga]
      have hex := (any_drop_iff g (g.length - 5)).1 hga
      refine ⟨iff_of_true rfl hex, iff_of_false (by decide) ?_,
        iff_of_false (by decide) ?_⟩
      · rintro ⟨hng, _⟩
        exact hng hex
      · rintro ⟨hng, _⟩
        exact hng hex
    · rw [if_neg hga]
      have hnex : ¬ ∃ i, g.length - 5 ≤ i ∧ g[i]? = some true :=
        fun hex => hga ((any_drop_iff g _).2 hex)
      by_cases hda : (d.drop (d.length - 5)).any id = true
      · rw [if_pos hda]
        refine ⟨iff_of_false (by decide) hnex,
          iff_of_true rfl ⟨hnex, (any_drop_iff d _).1 hda⟩,
          iff_of_false (by decide) ?_⟩
        rintro ⟨_, hnd⟩
        exact hnd ((any_drop_iff d _).1 hda)
      · rw [if_neg hda]
        have hned : ¬ ∃ i, d.length - 5 ≤ i ∧ d[i]? = some true :=
          fun hex => hda ((any_drop_iff d _).2 hex)
        exact ⟨iff_of_false (by decide) hnex,
          iff_of_false (by decide) (fun hc => hned hc.2),
          iff_of_true rfl ⟨hnex, hned⟩⟩

/-- C8 (witness): a one-bar frame takes the under-200-rows branch. -/
theorem ma_crossover_window_rule_witness :
    check_ma_crossover [flatBar 1] = "none" :=
  (ma_crossover_window_rule [flatBar 1]).1 (by decide)

theorem gains_nonneg (data : List ℚ) : ∀ q ∈ gains data, 0 ≤ q := by
  intro q hq
  obtain ⟨i, _, rfl⟩ := List.mem_map.1 hq
  rcases i with _ | j
  · exact le_refl 0
  · dsimp only
    split
    · linarith
    · exact le_refl 0

theorem losses_nonneg (data : List ℚ) : ∀ q ∈ losses data, 0 ≤ q := by
  intro q hq
  obtain ⟨i, _, rfl⟩ := List.mem_map.1 hq
  rcases i with _ | j
  · exact le_refl 0
  · dsimp only
    split
    · linarith
    · exact le_refl 0

theorem windowEnd_subset (xs : List ℚ) (w i : ℕ) :
    ∀ x ∈ windowEnd xs w i, x ∈ xs := by
  intro x hx
  exact List.mem_of_mem_take (List.mem_of_mem_drop hx)

theorem rolling_mean_nonneg (xs : List ℚ) (w i : ℕ) (q : ℚ)
    (hx : ∀ x ∈ xs, 0 ≤ x)
    (h : (rolling_mean xs w).getD i none = some q) : 0 ≤ q := by
  rw [rolling_mean, getD_range_map] at h
  by_cases hi : i < xs.length
  · rw [if_pos hi] at h
    by_cases hw : w ≤ i + 1
    · rw [if_pos hw] at h
      obtain rfl := (Option.some.inj h).symm
      refine div_nonneg (List.sum_nonneg ?_) (by positivity)
      intro x hxm
      exact hx x (windowEnd_subset xs w i x hxm)
    · rw [if_neg hw] at h
      exact Option.noConfusion h
  · rw [if_neg hi] at h
    exact Option.noConfusion h

theorem rsiVal_nan_left (l : Option ℚ) : rsiVal none l = .nan := by
  rcases l with _ | q <;> rfl

theorem rsiVal_nan_right (g : ℚ) : rsiVal (some g) none = .nan := rfl

theorem rsiVal_nan00 : rsiVal (some 0) (some 0) = .nan := by
  norm_num [rsiVal, ofOpt, fdiv, fadd, fsub, fneg]

theorem rsiVal_inf (g : ℚ) (hg : 0 < g) :
    rsiVal (some g) (some 0) = .fin 100 := by
  norm_num [rsiVal, ofOpt, fdiv, fadd, fsub, fneg, hg, hg.ne.symm]

theorem rsiVal_fin (g l : ℚ) (hg : 0 ≤ g) (hl : 0 < l) :
    rsiVal (some g) (some l) = .fin (100 - 100 / (1 + g / l)) := by
  have hq : 0 ≤ g / l := div_nonneg hg hl.le
  have h1 : (0 : ℚ) < 1 + g / l := by linarith
  norm_num [rsiVal, ofOpt, fdiv, fadd, fsub, fneg, hl.ne.symm, h1.ne.symm,
    sub_eq_add_neg]

/-- C4: wherever the rolling average gain and loss of `calculate_rsi` are
both defined at an index, the RSI is exactly 100 when the average loss is
0 and the average gain positive, is NaN when both are 0 (a flat window),
and lies in [0, 100] wherever it is a finite value; and no infinity ever
appears in the RSI series. -/
theorem rsi_range_and_degenerate (data : List ℚ) (period i : ℕ) :
    ((calculate_rsi data period).getD i .nan ≠ .inf
      ∧ (calculate_rsi data period).getD i .nan ≠ .ninf)
    ∧ ∀ g l,
        (rolling_mean (gains data) period).getD i none = some g →
        (rolling_mean (losses data) period).getD i none = some l →
        ((l = 0 → 0 < g →
            (calculate_rsi data period).getD i .nan = .fin 100)
         ∧ (l = 0 → g = 0 →
            (calculate_rsi data period).getD i .nan = .nan)
         ∧ ∀ x, (calculate_rsi data period).getD i .nan = .fin x →
            0 ≤ x ∧ x ≤ 100) := by
  have hrw : (calculate_rsi data period).getD i .nan
      = if i < data.length
        then rsiVal ((rolling_mean (gains data) period).getD i none)
                    ((rolling_mean (losses data) period).getD i none)
        else .nan := by
    rw [calculate_rsi, getD_range_map]
  have hcases : (calculate_rsi data period).getD i .nan = .nan
      ∨ ∃ x, (calculate_rsi data period).getD i .nan = .fin x
          ∧ 0 ≤ x ∧ x ≤ 100 := by
    rw [hrw]
    by_cases hi : i < data.length
    · rw [if_pos hi]
      rcases hG : (rolling_mean (gains data) period).getD i none with _ | g
      · exact Or.inl (rsiVal_nan_left _)
      rcases hL : (rolling_mean (losses data) period).getD i none with _ | l
      · exact Or.inl (rsiVal_nan_right g)
      have hg0 : 0 ≤ g := rolling_mean_nonneg _ _ _ _ (gains_nonneg data) hG
      have hl0 : 0 ≤ l := rolling_mean_nonneg _ _ _ _ (losses_nonneg data) hL
      rcases eq_or_lt_of_le hl0 with hl | hl
      · rcases eq_or_lt_of_le hg0 with hgz | hgz
        · exact Or.inl (by rw [← hl, ← hgz]; exact rsiVal_nan00)
        · exact Or.inr ⟨100, by rw [← hl]; exact rsiVal_inf g hgz,
            by norm_num, le_refl 100⟩
      · have hq : 0 ≤ g / l := div_nonneg hg0 hl.le
        have h1 : (0 : ℚ) < 1 + g / l := by linarith
        have h2 : 100 / (1 + g / l) ≤ 100 :=
          div_le_self (by norm_num) (by linarith)
        have h3 : 0 < 100 / (1 + g / l) := div_pos (by norm_num) h1
        exact Or.inr ⟨_, rsiVal_fin g l hg0 hl, by linarith, by linarith⟩
    · exact Or.inl (if_neg hi)
  constructor
  · rcases hcases with hn | ⟨x, hx, _, _⟩
    · rw [hn]
      exact ⟨fun hc => FVal.noConfusion hc, fun hc => FVal.noConfusion hc⟩
    · rw [hx]
      exact ⟨fun hc => FVal.noConfusion hc, fun hc => FVal.noConfusion hc⟩
  · intro g l hG hL
    have hi : i < data.length := by
      rw [rolling_mean, getD_range_map] at hG
      by_cases hig : i < (gains data).length
      · have : (gains data).length = data.length := by simp [gains]
        omega
      · rw [if_neg hig] at hG
        exact Option.noConfusion hG
    refine ⟨?_, ?_, ?_⟩
    · intro hl0 hgpos
      rw [hrw, if_pos hi, hG, hL, hl0]
      exact rsiVal_inf g hgpos
    · intro hl0 hg0
      rw [hrw, if_pos hi, hG, hL, hl0, hg0]
      exact rsiVal_nan00
    · intro x hx
      rcases hcases with hn | ⟨y, hy, hy0, hy100⟩
      · rw [hn] at hx
        exact FVal.noConfusion hx
      · rw [hy] at hx
        obtain rfl := FVal.fin.inj hx
        exact ⟨hy0, hy100⟩

/-- C4 (witness): 15 flat closes give a defined zero-gain zero-loss window
and a NaN RSI; 16 strictly rising closes give a zero average loss with
positive average gain and an RSI of exactly 100. -/
theorem rsi_range_and_degenerate_witness :
    (calculate_rsi flatCloses 14).getD 14 .nan = .nan
    ∧ (calculate_rsi risingCloses 14).getD 15 .nan = .fin 100 := by
  constructor
  · exact ((rsi_range_and_degenerate flatCloses 14 14).2 0 0
      (by decide!) (by decide!)).2.1 rfl rfl
  · exact ((rsi_range_and_degenerate risingCloses 14 15).2 1 0
      (by decide!) (by decide!)).1 rfl (by norm_num)

theorem detect_consolidation_length (df : Df) (w : ℕ) (t : ℚ) :
    (detect_consolidation df w t).length = df.length := by
  simp [detect_consolidation]

theorem detect_consolidation_true_bound (df : Df) (i : ℕ)
    (h : (detect_consolidation df 20).getD i false = true) :
    19 ≤ i ∧ i < df.length := by
  rw [detect_consolidation, getD_range_map] at h
  by_cases hi : i < df.length
  · rw [if_pos hi] at h
    refine ⟨?_, hi⟩
    by_contra hlt
    have h20 : ¬ (20 ≤ i + 1) := by omega
    have hnone : (rolling_max (highs df) 20).getD i none = none := by
      rw [rolling_max, getD_range_map]
      by_cases hh : i < (highs df).length
      · rw [if_pos hh, if_neg h20]
      · rw [if_neg hh]
    rw [hnone] at h
    simp at h
  · rw [if_neg hi] at h
    exact Bool.noConfusion h

theorem was_consolidating_iff (df : Df) :
    was_consolidating df = true ↔
      ∃ i, df.length - 10 ≤ i ∧ i + 2 ≤ df.length ∧
        (detect_consolidation df 20).getD i false = true := by
  have hlen := detect_consolidation_length df 20 (1/20)
  rw [was_consolidating]
  by_cases h10 : 10 < (detect_consolidation df 20).length
  · rw [if_pos h10, any_take_drop_iff]
    constructor
    · rintro ⟨i, hi1, hi2, hi3⟩
      have hg := (getD_true_iff _ _).2 hi3
      have hb := detect_consolidation_true_bound df i hg
      exact ⟨i, by omega, by omega, hg⟩
    · rintro ⟨i, hi1, hi2, hi3⟩
      have hb := detect_consolidation_true_bound df i hi3
      exact ⟨i, by omega, by omega, (getD_true_iff _ _).1 hi3⟩
  · rw [if_neg h10]
    constructor
    · intro h
      exact Bool.noConfusion h
    · rintro ⟨i, hi1, hi2, hi3⟩
      have hb := detect_consolidation_true_bound df i hi3
      exfalso
      omega

/-- C5 (amended): for a frame with at least 2 rows, the breakingOut
flag is true if and only if the consolidation indicator is true somewhere
within bars [-10, -2], is false at the most recent bar, and the close rose
STRICTLY more than 2% from the fifth-last close (`Close.iloc[-5]`) to the
latest close — the source compares `recent_close_change > 2`, so a rise of
exactly 2% does not count. -/
theorem consolidation_breakout_rule (df : Df) (h2 : 2 ≤ df.length) :
    (check_consolidation_breakout df).breaking_out = true ↔
      ((∃ i, df.length - 10 ≤ i ∧ i + 2 ≤ df.length ∧
          (detect_consolidation df 20).getD i false = true)
       ∧ (detect_consolidation df 20).getD (df.length - 1) false = false
       ∧ fltB (.fin 2) (recent_close_change df) = true) := by
  have hlen := detect_consolidation_length df 20 (1/20)
  rw [check_consolidation_breakout]
  dsimp only
  rw [if_neg (by omega : ¬ (detect_consolidation df 20).length < 2)]
  have hc : (detect_consolidation df 20).getLastD false
      = (detect_consolidation df 20).getD (df.length - 1) false := by
    rw [getLastD_eq_getD, hlen]
  rw [hc]
  constructor
  · intro h
    by_cases hw : was_consolidating df = true
    · have hex := (was_consolidating_iff df).1 hw
      have h10 : 10 < df.length := by
        obtain ⟨i, _, hi2, hi3⟩ := hex
        have := (detect_consolidation_true_bound df i hi3).1
        omega
      by_cases hcc :
          (detect_consolidation df 20).getD (df.length - 1) false = true
      · rw [hw, hcc] at h
        simp at h
      · have hccf :
            (detect_consolidation df 20).getD (df.length - 1) false
              = false := by
          cases hb : (detect_consolidation df 20).getD (df.length - 1) false
          · rfl
          · exact absurd hb hcc
        rw [hw, hccf] at h
        have h5 : 5 < df.length := by omega
        simp [h5] at h
        exact ⟨hex, hccf, h⟩
    · have hwf : was_consolidating df = false := by
        cases hb : was_consolidating df
        · rfl
        · exact absurd hb hw
      rw [hwf] at h
      simp at h
  · rintro ⟨hex, hcc, hch⟩
    have hw : was_consolidating df = true := (was_consolidating_iff df).2 hex
    have h10 : 10 < df.length := by
      obtain ⟨i, _, hi2, hi3⟩ := hex
      have := (detect_consolidation_true_bound df i hi3).1
      omega
    have h5 : 5 < df.length := by omega
    rw [hw, hcc]
    simp [hch, h5]

/-- C5 (witness): 20 flat bars then a wide bar closing 3% up: the flag is
set, through the amended rule. -/
theorem consolidation_breakout_rule_witness :
    (check_consolidation_breakout w5df).breaking_out = true :=
  (consolidation_breakout_rule w5df (by decide)).2
    ⟨⟨19, by decide, by decide, by decide!⟩, by decide!, by decide!⟩

/-- C5 (counterexample): on `cxdf` the close rises by exactly 2% from the
fifth-last bar, the consolidation indicator is true at bar -2 and false at
the last bar — the claim as stated ("rose by at least 2%", i.e. `>= 2`)
calls this a breakout, but the strict `> 2` comparison of the code leaves
breaking_out false. -/
theorem consolidation_breakout_not_at_least :
    ¬ ((check_consolidation_breakout cxdf).breaking_out = true ↔
       ((∃ i, cxdf.length - 10 ≤ i ∧ i + 2 ≤ cxdf.length ∧
           (detect_consolidation cxdf 20).getD i false = true)
        ∧ (detect_consolidation cxdf 20).getD (cxdf.length - 1) false
            = false
        ∧ fleB (.fin 2) (recent_close_change cxdf) = true)) := by
  intro h
  have hfalse : (check_consolidation_breakout cxdf).breaking_out = false := by
    decide!
  have htrue := h.2
    ⟨⟨19, by decide, by decide, by decide!⟩, by decide!, by decide!⟩
  rw [hfalse] at htrue
  exact Bool.noConfusion htrue

end Dashboard
